import Mathlib

/-!
Shallow embedding of `src/watcher/watcher.py` (nginx log watcher for a
blue/green deployment).  Pure functions of the source become Lean
functions; the module-level mutable state (`last_pool`, `request_window`,
`last_failover_alert`, `last_error_rate_alert`) becomes an explicit
`WState` record threaded through the functions; the wall clock
(`time.time()`) and the outcome of the HTTP POST become explicit
parameters (`now : ℚ`, `netOk : Bool`).  JSON decoding (`json.loads`) is
abstracted: a raw input line is either `malformed` (decoding raises
`JSONDecodeError`) or `wellFormed v` for a decoded value `v`; everything
downstream of decoding is translated literally.
-/

namespace Watcher

/-- A decoded JSON value, as returned by `json.loads`.  `num` collapses
JSON numbers to `Int` (the log fields consumed are status codes);
`obj` models the decoded dict (keys unique). -/
inductive Json where
  | null
  | bool (b : Bool)
  | num (n : Int)
  | str (s : String)
  | arr (elems : List Json)
  | obj (fields : List (String × Json))

mutual

/-- Python `==` / `!=` on decoded JSON values (structural; the numeric coercions of
Python such as `True == 1` are not exercised by the log fields
consumed). -/
def jeq : Json → Json → Bool
  | .null, .null => true
  | .bool a, .bool b => a == b
  | .num a, .num b => a == b
  | .str a, .str b => a == b
  | .arr a, .arr b => jeqList a b
  | .obj a, .obj b => jeqFields a b
  | _, _ => false

def jeqList : List Json → List Json → Bool
  | [], [] => true
  | a :: as, b :: bs => jeq a b && jeqList as bs
  | _, _ => false

def jeqFields : List (String × Json) → List (String × Json) → Bool
  | [], [] => true
  | (k, v) :: as, (k', v') :: bs => k == k' && jeq v v' && jeqFields as bs
  | _, _ => false

end

/-- Python truthiness (`if x:`) on a decoded JSON value. -/
def pyTruthy : Json → Bool
  | .null => false
  | .bool b => b
  | .num n => n != 0
  | .str s => s != ""
  | .arr l => !l.isEmpty
  | .obj f => !f.isEmpty

/-- Dict lookup on a decoded object (keys unique, as in a Python dict). -/
def jlookup (fields : List (String × Json)) (k : String) : Option Json :=
  match fields with
  | [] => none
  | (k', v) :: rest => if k' = k then some v else jlookup rest k

/-- Python `d.get(k, default)`. -/
def getD (fields : List (String × Json)) (k : String) (default : Json) : Json :=
  (jlookup fields k).getD default

/-- A raw input line: either JSON decoding fails on it, or it decodes to
a value.  (The textual content of a malformed line is irrelevant
downstream.) -/
inductive RawLine where
  | malformed (content : String)
  | wellFormed (value : Json)

/-- Model of `json.loads(line.strip())`, with `JSONDecodeError` mapped
to `none`. -/
def json_loads : RawLine → Option Json
  | .malformed _ => none
  | .wellFormed v => some v

/-- From watcher.py lines 124-130: `parse_log_line` returns the decoded value,
or `None` when decoding raises `JSONDecodeError`. -/
def parse_log_line (line : RawLine) : Option Json := json_loads line

/-- The environment-sourced configuration, watcher.py lines 16-21.
Floats (`ERROR_RATE_THRESHOLD`) and clock values are modelled as `ℚ`. -/
structure Config where
  slack_webhook_url : String
  error_rate_threshold : ℚ
  window_size : Nat
  alert_cooldown_sec : ℚ
  maintenance_mode : Bool

/-- The `request_info` dict built at watcher.py lines 194-199.  The four
keys are always present; `pool`, `status` and `time` hold whatever JSON
value the log line carried (or the `.get` default). -/
structure Record where
  pool : Json
  status : Json
  is_error : Bool
  time : Json

/-- The module-level mutable state, watcher.py lines 23-27.
`request_window` is the deque content, oldest first. -/
structure WState where
  last_pool : Option Json
  request_window : List Record
  last_failover_alert : ℚ
  last_error_rate_alert : ℚ

/-- The initial state (watcher.py lines 24-27): no pool seen, empty
window, both alert timestamps zero. -/
def initState : WState :=
  { last_pool := none, request_window := [], last_failover_alert := 0,
    last_error_rate_alert := 0 }

/-- Observable outcome of one `send_slack_alert` call: whether an HTTP
POST was attempted, and the boolean return value of the function. -/
structure SendResult where
  attempted : Bool
  delivered : Bool

/-- From watcher.py lines 29-67: `send_slack_alert(message, alert_type)`.
The network is abstracted by `netOk` (true iff the POST would return
status 200 without raising); the message text does not influence the
result.  Returns `True` only when a POST is attempted and succeeds. -/
def send_slack_alert (cfg : Config) (netOk : Bool) (message : String)
    (alert_type : String) : SendResult :=
  if cfg.slack_webhook_url = "" then
    { attempted := false, delivered := false }
  else if cfg.maintenance_mode && alert_type == "failover" then
    { attempted := false, delivered := false }
  else
    { attempted := true, delivered := netOk }

/-- One observed `send_slack_alert` invocation.  The message text of a
failover alert (lines 82-88) names the previous and current pools;
an error-rate alert (lines 111-118) names the current pool: those
pool identities are recorded in `prev_pool` / `pool`. -/
structure SendCall where
  alert_type : String
  prev_pool : Option Json
  pool : Json
  result : SendResult

/-- From watcher.py lines 69-93: `check_failover(current_pool)`.  Returns the
updated state and the `send_slack_alert` calls made (the source calls it
at most once; `last_pool = current_pool` at line 93 runs on every pool
change, inside or outside the cooldown gate). -/
def check_failover (cfg : Config) (now : ℚ) (netOk : Bool)
    (current_pool : Json) (st : WState) : WState × List SendCall :=
  match st.last_pool with
  | none => ({ st with last_pool := some current_pool }, [])
  | some lp =>
    if !jeq current_pool lp then
      if now - st.last_failover_alert > cfg.alert_cooldown_sec then
        ({ st with last_failover_alert := now, last_pool := some current_pool },
         [{ alert_type := "failover", prev_pool := some lp, pool := current_pool,
            result := send_slack_alert cfg netOk "failover message" "failover" }])
      else
        ({ st with last_pool := some current_pool }, [])
    else (st, [])

/-- The error percentage computed at watcher.py lines 103-105:
`error_count / total_count * 100` over the current window. -/
def errRate (st : WState) : ℚ :=
  (((st.request_window.filter (fun r => r.is_error)).length : ℚ) /
    (st.request_window.length : ℚ)) * 100

/-- From watcher.py lines 95-122: `check_error_rate()`.  Returns the updated
state, the `send_slack_alert` calls made, and whether the
`HIGH ERROR RATE` branch (line 107) was taken. -/
def check_error_rate (cfg : Config) (now : ℚ) (netOk : Bool)
    (st : WState) : WState × List SendCall × Bool :=
  if st.request_window.length < 10 then (st, [], false)
  else
    if errRate st > cfg.error_rate_threshold then
      if now - st.last_error_rate_alert > cfg.alert_cooldown_sec then
        ({ st with last_error_rate_alert := now },
         [{ alert_type := "error", prev_pool := none,
            pool := (st.request_window.getLast?.map Record.pool).getD (Json.str "unknown"),
            result := send_slack_alert cfg netOk "error rate message" "error" }],
         true)
      else (st, [], true)
    else (st, [], false)

/-- Whether `pat` starts the list `s` (helper for the Python `in` test
on strings). -/
def leadsWith : List Char → List Char → Bool
  | [], _ => true
  | _ :: _, [] => false
  | p :: ps, c :: cs => p == c && leadsWith ps cs

def hasSubAux (pat : List Char) : List Char → Bool
  | [] => leadsWith pat []
  | c :: cs => leadsWith pat (c :: cs) || hasSubAux pat cs

/-- Python substring test `pat in s`. -/
def pyInStr (pat s : String) : Bool := hasSubAux pat.toList s.toList

/-- Python `split` on a comma: split at each comma, keeping empty
pieces; the empty string splits to a one-element list holding the
empty string. -/
def pySplitCommaAux (acc : List Char) : List Char → List (List Char)
  | [] => [acc.reverse]
  | c :: cs =>
    if c == ',' then acc.reverse :: pySplitCommaAux [] cs
    else pySplitCommaAux (c :: acc) cs

def pySplitComma (s : List Char) : List (List Char) := pySplitCommaAux [] s

/-- Python `str.strip()`: drop whitespace from both ends. -/
def pyStrip (s : List Char) : List Char :=
  ((s.dropWhile Char.isWhitespace).reverse.dropWhile Char.isWhitespace).reverse

/-- Python `str.isdigit()` (ASCII model): nonempty and all decimal digits. -/
def pyIsDigit (s : List Char) : Bool := !s.isEmpty && s.all Char.isDigit

/-- Decimal value of a digit string (Python `int(...)` on the strings
that pass `pyIsDigit`). -/
def pyInt (s : List Char) : Nat :=
  s.foldl (fun n c => n * 10 + (c.toNat - 48)) 0

/-- From watcher.py lines 188-192, for a string-valued `upstream_status`:
`is_error` is `any(s >= 500 ...)` over
`[int(s.strip()) for s in upstream_status.split(',') if s.strip().isdigit()]`,
guarded by `if upstream_status:` (false exactly on the empty string). -/
def computeIsError (upstream_status : String) : Bool :=
  if upstream_status != "" then
    let statuses := (pySplitComma upstream_status.toList).filterMap
      (fun s => if pyIsDigit (pyStrip s) then some (pyInt (pyStrip s)) else none)
    statuses.any (fun v => decide (500 ≤ v))
  else false

/-- A Python exception escaping the per-line body (`TypeError` from
`in` on a non-string, or `AttributeError` from `.split` /
`.get` on a value without the method); all are caught by the
`except` at watcher.py line 212.  Collapsed to one constructor. -/
inductive PyErr where
  | typeError
deriving DecidableEq

/-- From watcher.py lines 188-192, on the raw `upstream_status` value:
a falsy value (including the empty-string default) yields `is_error = False`
without touching `.split`; a truthy non-string raises. -/
def isErrorOfVal : Json → Except PyErr Bool
  | .str us => .ok (computeIsError us)
  | v => if pyTruthy v then .error .typeError else .ok false

/-- Append semantics of `deque(maxlen=WINDOW_SIZE)`: drop from the left once the
window exceeds capacity (watcher.py line 25 / line 200). -/
def windowAppend (cfg : Config) (w : List Record) (r : Record) : List Record :=
  let w' := w ++ [r]
  w'.drop (w'.length - cfg.window_size)

/-- The body of the processing loop, watcher.py lines 172-207, for one
raw line: parse (skip on failure or falsy value), extract fields with
`.get` defaults, skip health checks, derive `is_error`, append to the
window, run `check_failover` when the pool is truthy, then
`check_error_rate`.  `.get` on a decoded non-dict raises, as does `in`
on a non-string `request`; every raise point precedes the first state
mutation, so an `.error` result leaves the state as passed in. -/
def processLine (cfg : Config) (now : ℚ) (netOk : Bool) (st : WState)
    (line : RawLine) : Except PyErr (WState × List SendCall) :=
  match parse_log_line line with
  | none => .ok (st, [])
  | some log =>
    if !pyTruthy log then .ok (st, [])
    else
      match log with
      | .obj fields =>
        let pool := getD fields "pool" (.str "")
        let status := getD fields "status" (.num 0)
        let upstream_status := getD fields "upstream_status" (.str "")
        let request := getD fields "request" (.str "")
        match request with
        | .str req =>
          if pyInStr "nginx-health" req || pyInStr "healthz" req then .ok (st, [])
          else
            match isErrorOfVal upstream_status with
            | .error e => .error e
            | .ok is_error =>
              let request_info : Record :=
                { pool := pool, status := status, is_error := is_error,
                  time := getD fields "time" (.str "") }
              let st1 := { st with
                request_window := windowAppend cfg st.request_window request_info }
              let step2 := if pyTruthy pool
                then check_failover cfg now netOk pool st1 else (st1, [])
              let step3 := check_error_rate cfg now netOk step2.1
              .ok (step3.1, step2.2 ++ step3.2.1)
        | _ => .error .typeError
      | _ => .error .typeError

/-- The batch loop, watcher.py lines 172-207: lines processed in order;
an escaping exception aborts the rest of the batch (the state mutated by
the earlier lines is kept, and the exception is caught at line 212). -/
def processBatch (cfg : Config) (now : ℚ) (netOk : Bool) (st : WState) :
    List RawLine → WState × List SendCall × Option PyErr
  | [] => (st, [], none)
  | l :: rest =>
    match processLine cfg now netOk st l with
    | .error e => (st, [], some e)
    | .ok (st', calls) =>
      let out := processBatch cfg now netOk st' rest
      (out.1, calls ++ out.2.1, out.2.2)

/-- The first of the two consecutive loops, watcher.py lines 168-171:
parses each line, binds the result, and runs no other statement. -/
def firstLoop (st : WState) (lines : List RawLine) : WState :=
  lines.foldl
    (fun s line =>
      match parse_log_line line with
      | none => s
      | some _ => s) st

/-- Both consecutive loops of watcher.py lines 168-207 in sequence. -/
def processBatchTwoLoops (cfg : Config) (now : ℚ) (netOk : Bool)
    (st : WState) (lines : List RawLine) : WState × List SendCall × Option PyErr :=
  processBatch cfg now netOk (firstLoop st lines) lines

/-- Python `f.readlines()` on the remaining content: split after each
newline, keeping the newline; a trailing chunk without a newline is
returned as a (partial) final line. -/
def pyReadlinesAux (acc : List Char) : List Char → List (List Char)
  | [] => if acc.isEmpty then [] else [acc.reverse]
  | c :: cs =>
    if c == '\n' then (acc.reverse ++ [c]) :: pyReadlinesAux [] cs
    else pyReadlinesAux (c :: acc) cs

def pyReadlines (content : List Char) : List (List Char) :=
  pyReadlinesAux [] content

/-- One poll cycle of the tail loop, watcher.py lines 159-165, on a file
whose current content is `file` with stored offset `last_position`:
`open; seek(last_position); lines = readlines(); last_position = tell()`.
Seeking past end-of-file does not raise; `readlines` then returns
nothing and `tell()` still reports the seek position, hence the new
offset is `max last_position file.length`. -/
def tailPoll (file : List Char) (last_position : Nat) :
    List (List Char) × Nat :=
  (pyReadlines (file.drop last_position), max last_position file.length)

/-- From watcher.py lines 149-153: a separate handle reads (and discards) all
existing lines; the read result is not used and the handle is closed. -/
def startupSkippedLines (file : List Char) : List (List Char) :=
  pyReadlines file

/-- From watcher.py line 156: the tail offset the loop actually starts from. -/
def initialPosition : Nat := 0

/-! ### Concrete fixtures used by witnesses and counterexamples -/

/-- A configuration with the default threshold (2.0%), window size (200)
and cooldown (300 s), a configured webhook, maintenance off. -/
def cfgW : Config :=
  { slack_webhook_url := "https://hooks.example/a", error_rate_threshold := 2,
    window_size := 200, alert_cooldown_sec := 300, maintenance_mode := false }

/-- Same as `cfgW` but with maintenance mode switched on. -/
def cfgM : Config := { cfgW with maintenance_mode := true }

/-- A tracking state: baseline pool `"blue"`, empty window, both alert
timestamps at 0. -/
def stBlue : WState :=
  { last_pool := some (Json.str "blue"), request_window := [],
    last_failover_alert := 0, last_error_rate_alert := 0 }

/-- A successful request record served by pool `"blue"`. -/
def recOk : Record :=
  { pool := Json.str "blue", status := Json.num 200, is_error := false,
    time := Json.str "" }

/-- An errored request record served by pool `"blue"`. -/
def recErr : Record :=
  { pool := Json.str "blue", status := Json.num 502, is_error := true,
    time := Json.str "" }

/-- A state whose window holds 10 records of which exactly 1 is an
error (a 10.0% error rate); the most recently appended record is the
last list element. -/
def st10 : WState :=
  { last_pool := some (Json.str "blue"),
    request_window := recErr :: List.replicate 9 recOk,
    last_failover_alert := 0, last_error_rate_alert := 0 }

/-! ### Claims -/

/-- C1: Failover detector state machine.  With no baseline
(`last_pool = None`) the observed pool becomes the baseline and no
alert is raised.  With a baseline, a differing pool is a failover
event: `last_pool` is updated to the new value whether or not the
cooldown gate lets the notification through (when it does, the
`failover`-typed `send_slack_alert` call names the previous and current
pools and the timestamp is advanced); an unchanged pool leaves the
state untouched and raises nothing. -/
theorem C1_failover_state_machine (cfg : Config) (now : ℚ) (netOk : Bool)
    (p : Json) (st : WState) :
    (st.last_pool = none →
      check_failover cfg now netOk p st = ({ st with last_pool := some p }, []))
    ∧ (∀ lp, st.last_pool = some lp → jeq p lp = false →
        (now - st.last_failover_alert > cfg.alert_cooldown_sec →
          check_failover cfg now netOk p st =
            ({ st with last_pool := some p, last_failover_alert := now },
             [{ alert_type := "failover", prev_pool := some lp, pool := p,
                result := send_slack_alert cfg netOk "failover message" "failover" }]))
        ∧ (¬ now - st.last_failover_alert > cfg.alert_cooldown_sec →
          check_failover cfg now netOk p st = ({ st with last_pool := some p }, [])))
    ∧ (∀ lp, st.last_pool = some lp → jeq p lp = true →
        check_failover cfg now netOk p st = (st, [])) := by
  refine ⟨fun h => by simp [check_failover, h], fun lp hlp hne => ⟨?_, ?_⟩,
    fun lp hlp he => by simp [check_failover, hlp, he]⟩
  · intro hcd
    simp [check_failover, hlp, hne, hcd]
  · intro hcd
    simp [check_failover, hlp, hne, hcd]

/-- C1 witness: from baseline `"blue"` at timestamp 0, a record from
pool `"green"` at time 301 (cooldown 300) fires a failover alert and
rebases `last_pool`. -/
theorem C1_failover_state_machine_witness :
    check_failover cfgW 301 true (Json.str "green") stBlue =
      ({ stBlue with
          last_pool := some (Json.str "green"), last_failover_alert := 301 },
       [{ alert_type := "failover", prev_pool := some (Json.str "blue"),
          pool := Json.str "green",
          result := send_slack_alert cfgW true "failover message" "failover" }]) :=
  ((C1_failover_state_machine cfgW 301 true (Json.str "green") stBlue).2.1
    (Json.str "blue") rfl (by decide)).1 (by norm_num [cfgW, stBlue])

/-- C2: Error-rate detector.  Below 10 records in the window the check
is a no-op regardless of error count.  At 10 or more records the
`HIGH ERROR RATE` branch is taken exactly when
`error_count / total_count * 100` strictly exceeds the threshold, and
the `error`-typed `send_slack_alert` call (made when additionally the
cooldown has elapsed) attributes the alert to the pool of the most
recently appended (= last) window record. -/
theorem C2_error_rate_detector (cfg : Config) (now : ℚ) (netOk : Bool)
    (st : WState) :
    (st.request_window.length < 10 →
      check_error_rate cfg now netOk st = (st, [], false))
    ∧ (¬ st.request_window.length < 10 →
        ((check_error_rate cfg now netOk st).2.2 = true ↔
          errRate st > cfg.error_rate_threshold)
        ∧ (errRate st > cfg.error_rate_threshold →
            (now - st.last_error_rate_alert > cfg.alert_cooldown_sec →
              check_error_rate cfg now netOk st =
                ({ st with last_error_rate_alert := now },
                 [{ alert_type := "error", prev_pool := none,
                    pool := (st.request_window.getLast?.map Record.pool).getD
                      (Json.str "unknown"),
                    result := send_slack_alert cfg netOk "error rate message" "error" }],
                 true))
            ∧ (¬ now - st.last_error_rate_alert > cfg.alert_cooldown_sec →
              check_error_rate cfg now netOk st = (st, [], true)))
        ∧ (¬ errRate st > cfg.error_rate_threshold →
            check_error_rate cfg now netOk st = (st, [], false))) := by
  refine ⟨fun h => by simp [check_error_rate, h], fun h => ⟨?_, fun hr => ⟨?_, ?_⟩, ?_⟩⟩
  · constructor
    · intro ht
      by_contra hr
      simp [check_error_rate, h, hr] at ht
    · intro hr
      rcases Classical.em (now - st.last_error_rate_alert > cfg.alert_cooldown_sec) with hcd | hcd <;>
        simp [check_error_rate, h, hr, hcd]
  · intro hcd
    simp [check_error_rate, h, hr, hcd]
  · intro hcd
    simp [check_error_rate, h, hr, hcd]
  · intro hr
    simp [check_error_rate, h, hr]

/-- C2 witness: the test vector given in the spec — a window of 10 records
with 1 error is a 10.0% rate; against the default 2.0% threshold, with
the cooldown elapsed, the alert fires and is attributed to pool
`"blue"`, the pool of the last window record. -/
theorem C2_error_rate_detector_witness :
    check_error_rate cfgW 301 true st10 =
      ({ st10 with last_error_rate_alert := 301 },
       [{ alert_type := "error", prev_pool := none, pool := Json.str "blue",
          result := send_slack_alert cfgW true "error rate message" "error" }],
       true) :=
  (((C2_error_rate_detector cfgW 301 true st10).2 (by decide)).2.1
    (by norm_num [errRate, st10, recErr, recOk, cfgW])).1 (by norm_num [cfgW, st10])

/-- C3: Alert cooldown gate.  (i) The post-call state of either check is
independent of the delivery outcome `netOk` — the timestamp update does
not consult the return value of `send_slack_alert`.  (ii) Each check
leaves the timestamp of the other kind untouched.  (iii) On a pool change a
failover call is made iff `now - last_failover_alert > cooldown`, and a
firing sets that timestamp to `now`; symmetrically for the error-rate
check over a full window.  (iv) Two-event scenario: after a failover
alert fires at `now`, a further pool change at `t2` is dispatched iff
`t2 - now > cooldown`. -/
theorem C3_cooldown_gate (cfg : Config) (now t2 : ℚ) (netOk netOk2 : Bool)
    (p q : Json) (st : WState) :
    ((check_failover cfg now netOk p st).1 = (check_failover cfg now netOk2 p st).1
     ∧ (check_error_rate cfg now netOk st).1 = (check_error_rate cfg now netOk2 st).1)
    ∧ ((check_failover cfg now netOk p st).1.last_error_rate_alert =
          st.last_error_rate_alert
     ∧ (check_error_rate cfg now netOk st).1.last_failover_alert =
          st.last_failover_alert)
    ∧ (∀ lp, st.last_pool = some lp → jeq p lp = false →
        ((check_failover cfg now netOk p st).2 ≠ [] ↔
          now - st.last_failover_alert > cfg.alert_cooldown_sec)
        ∧ (now - st.last_failover_alert > cfg.alert_cooldown_sec →
            (check_failover cfg now netOk p st).1.last_failover_alert = now))
    ∧ (¬ st.request_window.length < 10 →
        (((check_error_rate cfg now netOk st).2.1 ≠ [] ↔
           (errRate st > cfg.error_rate_threshold ∧
            now - st.last_error_rate_alert > cfg.alert_cooldown_sec))
         ∧ ((check_error_rate cfg now netOk st).2.1 ≠ [] →
            (check_error_rate cfg now netOk st).1.last_error_rate_alert = now)))
    ∧ (∀ lp, st.last_pool = some lp → jeq p lp = false →
        now - st.last_failover_alert > cfg.alert_cooldown_sec →
        jeq q p = false →
        ((¬ t2 - now > cfg.alert_cooldown_sec →
           (check_failover cfg t2 netOk2 q
             (check_failover cfg now netOk p st).1).2 = [])
         ∧ (t2 - now > cfg.alert_cooldown_sec →
           (check_failover cfg t2 netOk2 q
             (check_failover cfg now netOk p st).1).2 ≠ []))) := by
  have hfe : ∀ (nk : Bool),
      (check_error_rate cfg now nk st).1.last_failover_alert =
        st.last_failover_alert := by
    intro nk
    unfold check_error_rate
    split
    · rfl
    · split
      · split <;> rfl
      · rfl
  have hern : ∀ (nk nk' : Bool),
      (check_error_rate cfg now nk st).1 = (check_error_rate cfg now nk' st).1 := by
    intro nk nk'
    unfold check_error_rate
    split
    · rfl
    · split
      · split <;> rfl
      · rfl
  refine ⟨⟨?_, hern netOk netOk2⟩, ⟨?_, hfe netOk⟩, ?_, ?_, ?_⟩
  · unfold check_failover
    rcases st.last_pool with _ | lp
    · rfl
    · dsimp only
      split
      · split <;> rfl
      · rfl
  · unfold check_failover
    rcases st.last_pool with _ | lp
    · rfl
    · dsimp only
      split
      · split <;> rfl
      · rfl
  · intro lp hlp hne
    constructor
    · constructor
      · intro hcall
        by_contra hcd
        simp [check_failover, hlp, hne, hcd] at hcall
      · intro hcd
        simp [check_failover, hlp, hne, hcd]
    · intro hcd
      simp [check_failover, hlp, hne, hcd]
  · intro hlen
    constructor
    · constructor
      · intro hcall
        rcases Classical.em (errRate st > cfg.error_rate_threshold) with hr | hr
        · rcases Classical.em
            (now - st.last_error_rate_alert > cfg.alert_cooldown_sec) with hcd | hcd
          · exact ⟨hr, hcd⟩
          · simp [check_error_rate, hlen, hr, hcd] at hcall
        · simp [check_error_rate, hlen, hr] at hcall
      · rintro ⟨hr, hcd⟩
        simp [check_error_rate, hlen, hr, hcd]
    · intro hcall
      rcases Classical.em (errRate st > cfg.error_rate_threshold) with hr | hr
      · rcases Classical.em
          (now - st.last_error_rate_alert > cfg.alert_cooldown_sec) with hcd | hcd
        · simp [check_error_rate, hlen, hr, hcd]
        · simp [check_error_rate, hlen, hr, hcd] at hcall
      · simp [check_error_rate, hlen, hr] at hcall
  · intro lp hlp hne hcd hqp
    have hfired : (check_failover cfg now netOk p st).1 =
        { st with last_pool := some p, last_failover_alert := now } := by
      simp [check_failover, hlp, hne, hcd]
    constructor
    · intro hcd2
      rw [hfired]
      simp [check_failover, hqp, hcd2]
    · intro hcd2
      rw [hfired]
      simp [check_failover, hqp, hcd2]

/-- C3 witness: baseline `"blue"`, cooldown 300.  A failover to
`"green"` at time 301 fires; a failover back to `"blue"` at time 302
(1 s later) is suppressed; a failover back to `"blue"` at time 700
(399 s later) is dispatched again. -/
theorem C3_cooldown_gate_witness :
    (check_failover cfgW 302 true (Json.str "blue")
       (check_failover cfgW 301 true (Json.str "green") stBlue).1).2 = []
    ∧ (check_failover cfgW 700 true (Json.str "blue")
       (check_failover cfgW 301 true (Json.str "green") stBlue).1).2 ≠ [] := by
  constructor
  · exact (((C3_cooldown_gate cfgW 301 302 true true (Json.str "green")
      (Json.str "blue") stBlue).2.2.2.2) (Json.str "blue") rfl (by decide)
      (by norm_num [cfgW, stBlue]) (by decide)).1 (by norm_num [cfgW])
  · exact (((C3_cooldown_gate cfgW 301 700 true true (Json.str "green")
      (Json.str "blue") stBlue).2.2.2.2) (Json.str "blue") rfl (by decide)
      (by norm_num [cfgW, stBlue]) (by decide)).2 (by norm_num [cfgW])

/-- One entry of the comma-split field, read the way the comprehension
at watcher.py line 191 reads it: strip, keep only all-digit entries,
take the decimal value.  Non-numeric and empty entries map to `none`. -/
def parseIntEntry (s : List Char) : Option Nat :=
  if pyIsDigit (pyStrip s) then some (pyInt (pyStrip s)) else none

/-- The `is_error` property as the spec words it: the field, split on
commas, contains at least one entry that parses as an integer ≥ 500;
entries that do not parse are ignored. -/
def specIsError (upstream_status : String) : Bool :=
  (pySplitComma upstream_status.toList).any (fun s =>
    match parseIntEntry s with
    | some v => decide (500 ≤ v)
    | none => false)

theorem any_filterMap {α β : Type} (f : α → Option β) (g : β → Bool)
    (l : List α) :
    (l.filterMap f).any g =
      l.any (fun x => match f x with | some v => g v | none => false) := by
  induction l with
  | nil => rfl
  | cons a as ih =>
    cases h : f a <;> simp [List.filterMap_cons, h, ih]

/-- C6: `is_error` derivation.  The computation in the code (comma-split,
strip, keep digit-only entries, flag when any value is ≥ 500, with the
empty field short-circuited to false) coincides with the reading in
the spec: true iff some comma-separated entry parses as an integer
≥ 500, non-numeric and empty entries ignored; the wholly empty field is
never an error. -/
theorem C6_is_error_derivation (upstream_status : String) :
    computeIsError upstream_status = specIsError upstream_status
    ∧ (computeIsError upstream_status = true ↔
        ∃ s ∈ pySplitComma upstream_status.toList,
          ∃ v, parseIntEntry s = some v ∧ 500 ≤ v)
    ∧ computeIsError "" = false := by
  have heq : computeIsError upstream_status = specIsError upstream_status := by
    by_cases h : upstream_status = ""
    · subst h; rfl
    · have hg : (upstream_status != "") = true := by
        simp [bne_iff_ne, h]
      unfold computeIsError specIsError
      rw [hg]
      simp only [if_true]
      rw [any_filterMap]
      congr 1
      funext s
      have hpe : (if pyIsDigit (pyStrip s) = true
          then some (pyInt (pyStrip s)) else none) = parseIntEntry s := rfl
      rw [hpe]
      cases hps : parseIntEntry s <;> simp [hps]
  refine ⟨heq, ?_, rfl⟩
  rw [heq]
  unfold specIsError
  rw [List.any_eq_true]
  constructor
  · rintro ⟨s, hs, hv⟩
    cases hps : parseIntEntry s with
    | none => rw [hps] at hv; exact absurd hv (by simp)
    | some v =>
      rw [hps] at hv
      exact ⟨s, hs, v, hps, by simpa using hv⟩
  · rintro ⟨s, hs, v, hps, hv⟩
    refine ⟨s, hs, ?_⟩
    rw [hps]
    simpa using hv

/-- C7: Maintenance-mode suppression is asymmetric.  With maintenance
on, a `failover`-typed call makes no POST and returns not-delivered
(whether or not a webhook is configured); an `error`-typed call is
unaffected — with a webhook configured it still attempts the POST
(maintenance on or off); with maintenance off and a webhook configured,
a `failover`-typed call attempts the POST normally. -/
theorem C7_maintenance_asymmetry (cfg : Config) (netOk : Bool)
    (m1 m2 : String) :
    (cfg.maintenance_mode = true →
      send_slack_alert cfg netOk m1 "failover" =
        { attempted := false, delivered := false })
    ∧ (cfg.slack_webhook_url ≠ "" →
        send_slack_alert cfg netOk m2 "error" =
          { attempted := true, delivered := netOk })
    ∧ (cfg.maintenance_mode = false → cfg.slack_webhook_url ≠ "" →
        send_slack_alert cfg netOk m1 "failover" =
          { attempted := true, delivered := netOk }) := by
  refine ⟨fun hm => ?_, fun hw => ?_, fun hm hw => ?_⟩
  · unfold send_slack_alert
    split
    · rfl
    · rw [if_pos]
      simp [hm]
  · simp [send_slack_alert, hw]
  · simp [send_slack_alert, hw, hm]

/-- C7 witness: with a configured webhook — maintenance on: the
failover alert is not attempted and reports not-delivered while the
error-rate alert still attempts delivery; maintenance off: the
failover alert attempts delivery. -/
theorem C7_maintenance_asymmetry_witness :
    send_slack_alert cfgM true "m1" "failover" =
      { attempted := false, delivered := false }
    ∧ send_slack_alert cfgM true "m2" "error" =
      { attempted := true, delivered := true }
    ∧ send_slack_alert cfgW true "m1" "failover" =
      { attempted := true, delivered := true } :=
  ⟨(C7_maintenance_asymmetry cfgM true "m1" "m2").1 rfl,
   (C7_maintenance_asymmetry cfgM true "m1" "m2").2.1 (by decide),
   (C7_maintenance_asymmetry cfgW true "m1" "m2").2.2 rfl (by decide)⟩

/-- The record produced at watcher.py lines 194-199 for an object with
none of the consumed keys: every `.get` default. -/
def defaultRecord : Record :=
  { pool := Json.str "", status := Json.num 0, is_error := false,
    time := Json.str "" }

/-- C8 counterexample: the line decoding to the empty JSON object `{}`
decodes successfully and carries no health-check marker, yet it is
rejected by the `if not log` truthiness test at watcher.py line 174 —
the state is returned unchanged (in particular the window, initially
empty, stays empty), whereas the claim requires every successfully
decoded line to be tolerated with defaulted fields rather than
rejected. -/
theorem C8_counterexample :
    parse_log_line (RawLine.wellFormed (Json.obj [])) = some (Json.obj [])
    ∧ processLine cfgW 0 true initState (RawLine.wellFormed (Json.obj [])) =
        Except.ok (initState, [])
    ∧ initState.request_window.length = 0 :=
  ⟨rfl, rfl, rfl⟩

/-- C8 (amended): parser containment and defaults.  A line whose JSON
decoding fails is rejected silently: no exception, no alert call, no
state change.  A line decoding to a *falsy* value (empty object, empty
array, `null`, `0`, `false`, `""`) is likewise rejected silently.  For
a line decoding to a non-empty object, absent fields are tolerated via
`.get` defaults (empty string for `pool`, `request`, `upstream_status`
and `time`; zero for `status`): the defaulted record is appended to the
window and the detectors run (the empty default pool skips the failover
check, as the truthiness gate in the code prescribes). -/
theorem C8_parser_containment (cfg : Config) (now : ℚ) (netOk : Bool)
    (st : WState) :
    (∀ s, processLine cfg now netOk st (RawLine.malformed s) =
      Except.ok (st, []))
    ∧ (∀ j, pyTruthy j = false →
        processLine cfg now netOk st (RawLine.wellFormed j) =
          Except.ok (st, []))
    ∧ (∀ fields, fields ≠ [] →
        jlookup fields "pool" = none → jlookup fields "status" = none →
        jlookup fields "upstream_status" = none →
        jlookup fields "request" = none → jlookup fields "time" = none →
        processLine cfg now netOk st (RawLine.wellFormed (Json.obj fields)) =
          Except.ok
            ((check_error_rate cfg now netOk
              { st with request_window :=
                  windowAppend cfg st.request_window defaultRecord }).1,
             (check_error_rate cfg now netOk
              { st with request_window :=
                  windowAppend cfg st.request_window defaultRecord }).2.1)) := by
  refine ⟨fun s => rfl, fun j hj => ?_, fun fields hne hp hs hu hr ht => ?_⟩
  · simp [processLine, parse_log_line, json_loads, hj]
  · have hemp : fields.isEmpty = false := by
      cases fields with
      | nil => exact absurd rfl hne
      | cons a as => rfl
    simp [processLine, parse_log_line, json_loads, hemp, getD, hp, hs, hu, hr, ht,
      pyInStr, hasSubAux, leadsWith, isErrorOfVal, computeIsError, pyTruthy,
      defaultRecord]

/-- C8 witness: a non-empty object with none of the consumed fields —
an object whose only key is `foo` — is not rejected: the fully defaulted record enters
the (previously empty) window and no alert call is made. -/
theorem C8_parser_containment_witness :
    processLine cfgW 0 true initState
      (RawLine.wellFormed (Json.obj [("foo", Json.num 1)])) =
      Except.ok ({ initState with request_window :=
        [{ pool := Json.str "", status := Json.num 0, is_error := false,
           time := Json.str "" }] }, []) := by
  have h := (C8_parser_containment cfgW 0 true initState).2.2
    [("foo", Json.num 1)] (List.cons_ne_nil _ _) rfl rfl rfl rfl rfl
  exact h

/-- C9: Health-check frame property.  Any decoded object whose
`request` field contains `nginx-health` or `healthz` is discarded
before the window append: the returned state is exactly the input state
(window, `last_pool`, both cooldown timestamps all unchanged) and no
alert call is made, regardless of the other fields. -/
theorem C9_health_check_frame (cfg : Config) (now : ℚ) (netOk : Bool)
    (st : WState) (fields : List (String × Json)) (req : String) :
    jlookup fields "request" = some (Json.str req) →
    (pyInStr "nginx-health" req || pyInStr "healthz" req) = true →
    processLine cfg now netOk st (RawLine.wellFormed (Json.obj fields)) =
      Except.ok (st, []) := by
  intro hreq hmark
  have hne : fields ≠ [] := by
    intro h
    rw [h] at hreq
    exact Option.noConfusion hreq
  have htr : pyTruthy (Json.obj fields) = true := by
    cases fields with
    | nil => exact absurd rfl hne
    | cons a as => rfl
  simp [processLine, parse_log_line, json_loads, htr, getD, hreq, hmark]

/-- C9 witness: a record with pool `"green"` and status 500 whose
request is `GET /healthz HTTP/1.1` leaves the tracking state `stBlue`
fully unchanged and makes no alert call. -/
theorem C9_health_check_frame_witness :
    processLine cfgW 0 true stBlue
      (RawLine.wellFormed (Json.obj
        [("request", Json.str "GET /healthz HTTP/1.1"),
         ("pool", Json.str "green"), ("status", Json.num 500)])) =
      Except.ok (stBlue, []) :=
  C9_health_check_frame cfgW 0 true stBlue
    [("request", Json.str "GET /healthz HTTP/1.1"),
     ("pool", Json.str "green"), ("status", Json.num 500)]
    "GET /healthz HTTP/1.1" rfl (by decide)

/-- C10: the first of the two consecutive per-line loops only parses
and discards, so running both loops over any batch is the same as
running only the second: the effects of each line on the window, the
detector state, the cooldown timestamps and the emitted alert calls
occur at most once per batch. -/
theorem C10_first_loop_is_dead (cfg : Config) (now : ℚ) (netOk : Bool)
    (st : WState) (lines : List RawLine) :
    processBatchTwoLoops cfg now netOk st lines =
      processBatch cfg now netOk st lines := by
  unfold processBatchTwoLoops
  have h : firstLoop st lines = st := by
    unfold firstLoop
    induction lines with
    | nil => rfl
    | cons l rest ih =>
      rw [List.foldl_cons]
      cases hp : parse_log_line l <;> simpa [hp] using ih
  rw [h]

/-- A three-byte file content, `ok` plus a newline — the state of the
log file after a truncation/rotation, and also a pre-existing line at
startup. -/
def smallFile : List Char := ['o', 'k', '\n']

/-- C4, behavior at the failing input: with the stored offset 10 and
the file truncated to 3 bytes (size < offset), the poll cycle performs
no reset — it returns no lines and leaves the offset at 10 (the stream
stalls), instead of resetting the offset to 0 and reading the content
as the claim requires. -/
theorem C4_truncation_not_reset :
    smallFile.length < 10
    ∧ tailPoll smallFile 10 = ([], 10)
    ∧ tailPoll smallFile 10 ≠ (pyReadlines smallFile, smallFile.length) := by
  decide

/-- C5, behavior at the failing input: the tail loop starts at offset 0
(watcher.py line 156) — the `readlines` result of the skip block is computed
on a separate handle and discarded — so the first poll over a file that
already held a line returns that pre-existing line as live input; and a
line handed to the processing loop does mutate the state (here: a first
pool observation is recorded and the record enters the window), whereas
the claim requires pre-existing content never to be parsed, appended,
or fed to the detectors. -/
theorem C5_preexisting_lines_processed :
    initialPosition = 0
    ∧ startupSkippedLines smallFile = [['o', 'k', '\n']]
    ∧ tailPoll smallFile initialPosition = ([['o', 'k', '\n']], 3)
    ∧ processLine cfgW 0 true initState
        (RawLine.wellFormed (Json.obj [("pool", Json.str "blue")])) =
      Except.ok ({ initState with
        last_pool := some (Json.str "blue"),
        request_window := [{ pool := Json.str "blue", status := Json.num 0,
                             is_error := false, time := Json.str "" }] }, []) :=
  ⟨rfl, rfl, rfl, rfl⟩

end Watcher
